import Mathlib

/-!
Shallow embedding of the Pong engine of `src/src/pong-game.js` (the only
subsystem of the repository with algorithmic content), together with proofs
of the behavioural properties stated in the specification.  JavaScript
numbers are modelled as real numbers, `Math.cos`/`Math.sin`/`Math.sqrt` as
`Real.cos`/`Real.sin`/`Real.sqrt`, and the nullable return values of the
collision helpers as `Option`.
-/

namespace Pong

noncomputable section

/- The numeric constants of `PONG_CONFIG` in `src/src/pong-game.js`. -/
namespace PONG_CONFIG

def width : ℝ := 500

def height : ℝ := 300

def paddleWidth : ℝ := 12

def paddleHeight : ℝ := 70

def paddleSpeed : ℝ := 6

def paddleMargin : ℝ := 15

def ballSize : ℝ := 10

def ballSpeedInitial : ℝ := 4

def ballSpeedIncrement : ℝ := 0.15

def ballSpeedMax : ℝ := 8

def pointsToWin : ℕ := 5

def countdownSeconds : ℝ := 3

end PONG_CONFIG

/-- The ball record `{x, y, vx, vy, speed}` of the game state. -/
structure Ball where
  x : ℝ
  y : ℝ
  vx : ℝ
  vy : ℝ
  speed : ℝ

/-- The input record `{up, down}` of the game state. -/
structure Input where
  up : Bool
  down : Bool

/-- Embeds `clampPaddleY` of `src/src/pong-game.js`:
`Math.max(0, Math.min(height - paddleHeight, y))`. -/
def clampPaddleY (y : ℝ) : ℝ :=
  max 0 (min (PONG_CONFIG.height - PONG_CONFIG.paddleHeight) y)

/-- Embeds `movePlayerPaddle` of `src/src/pong-game.js`: subtract
`paddleSpeed * frameSpeed` when `up` is held, add it when `down` is held,
then clamp. -/
def movePlayerPaddle (currentY : ℝ) (input : Input) (frameSpeed : ℝ) : ℝ :=
  let y1 := if input.up then currentY - PONG_CONFIG.paddleSpeed * frameSpeed else currentY
  let y2 := if input.down then y1 + PONG_CONFIG.paddleSpeed * frameSpeed else y1
  clampPaddleY y2

/-- The result record `{collided, newY, newVy}` of `checkWallCollision`. -/
structure WallResult where
  collided : Bool
  newY : ℝ
  newVy : ℝ

/-- Embeds `checkWallCollision` of `src/src/pong-game.js`: clamp at the top
wall forcing `vy = |vy|`, clamp at the bottom wall forcing `vy = -|vy|`,
otherwise leave the ball untouched. -/
def checkWallCollision (ball : Ball) : WallResult :=
  if ball.y ≤ 0 then
    ⟨true, 0, |ball.vy|⟩
  else if PONG_CONFIG.height - PONG_CONFIG.ballSize ≤ ball.y then
    ⟨true, PONG_CONFIG.height - PONG_CONFIG.ballSize, -|ball.vy|⟩
  else
    ⟨false, ball.y, ball.vy⟩

/-- The range `[0, height - paddleHeight]` of `clampPaddleY`. -/
lemma clampPaddleY_range (y : ℝ) :
    0 ≤ clampPaddleY y ∧ clampPaddleY y ≤ PONG_CONFIG.height - PONG_CONFIG.paddleHeight := by
  unfold clampPaddleY
  constructor
  · exact le_max_left _ _
  · apply max_le
    · norm_num [PONG_CONFIG.height, PONG_CONFIG.paddleHeight]
    · exact min_le_left _ _

/-- `clampPaddleY` is the identity on the valid range. -/
lemma clampPaddleY_eq_self (y : ℝ) (h0 : 0 ≤ y)
    (h1 : y ≤ PONG_CONFIG.height - PONG_CONFIG.paddleHeight) : clampPaddleY y = y := by
  unfold clampPaddleY
  rw [min_eq_right h1, max_eq_right h0]

/-- Claim C4: `checkWallCollision` always returns a `newY` in
`[0, height - ballSize]`; a ball with `y ≤ 0` is clamped to the top wall with
`newVy = |vy|`; a ball with `y ≥ height - ballSize` is clamped to the bottom
wall with `newVy = -|vy|`; a ball strictly inside the court is unchanged. -/
theorem checkWallCollision_spec (ball : Ball) :
    (0 ≤ (checkWallCollision ball).newY ∧
      (checkWallCollision ball).newY ≤ PONG_CONFIG.height - PONG_CONFIG.ballSize) ∧
    (ball.y ≤ 0 → checkWallCollision ball = ⟨true, 0, |ball.vy|⟩) ∧
    (PONG_CONFIG.height - PONG_CONFIG.ballSize ≤ ball.y →
      checkWallCollision ball =
        ⟨true, PONG_CONFIG.height - PONG_CONFIG.ballSize, -|ball.vy|⟩) ∧
    (0 < ball.y → ball.y < PONG_CONFIG.height - PONG_CONFIG.ballSize →
      checkWallCollision ball = ⟨false, ball.y, ball.vy⟩) := by
  unfold checkWallCollision
  split_ifs with h1 h2
  · refine ⟨⟨le_refl 0, by norm_num [PONG_CONFIG.height, PONG_CONFIG.ballSize]⟩, ?_, ?_, ?_⟩
    · intro _; rfl
    · intro h2
      exfalso
      have : (0:ℝ) < PONG_CONFIG.height - PONG_CONFIG.ballSize := by
        norm_num [PONG_CONFIG.height, PONG_CONFIG.ballSize]
      linarith
    · intro h; exfalso; linarith
  · refine ⟨⟨by norm_num [PONG_CONFIG.height, PONG_CONFIG.ballSize], le_refl _⟩, ?_, ?_, ?_⟩
    · intro h; exact absurd h h1
    · intro _; rfl
    · intro _ h; exfalso; linarith
  · push_neg at h1 h2
    refine ⟨⟨le_of_lt h1, le_of_lt h2⟩, ?_, ?_, ?_⟩
    · intro h; exfalso; linarith
    · intro h; exfalso; linarith
    · intro _ _; rfl

/-- Witness for claim C4: the spec scenario
`checkWallCollision({y: -5, vy: -3})` yields `{collided: true, newY: 0, newVy: 3}`. -/
theorem checkWallCollision_spec_witness :
    checkWallCollision ⟨0, -5, 0, -3, 4⟩ = ⟨true, 0, 3⟩ := by
  have h := (checkWallCollision_spec ⟨0, -5, 0, -3, 4⟩).2.1 (by norm_num)
  rw [h]
  norm_num

/-- Claim C8: `movePlayerPaddle` equals the clamped net-direction formula
`clampPaddleY (currentY + ((down ? 1 : 0) - (up ? 1 : 0)) * paddleSpeed * frameSpeed)`,
and its result always lies in `[0, height - paddleHeight]`. -/
theorem movePlayerPaddle_spec (currentY : ℝ) (input : Input) (frameSpeed : ℝ) :
    movePlayerPaddle currentY input frameSpeed =
      clampPaddleY (currentY +
        ((if input.down then (1:ℝ) else 0) - (if input.up then (1:ℝ) else 0)) *
          PONG_CONFIG.paddleSpeed * frameSpeed) ∧
    0 ≤ movePlayerPaddle currentY input frameSpeed ∧
    movePlayerPaddle currentY input frameSpeed ≤
      PONG_CONFIG.height - PONG_CONFIG.paddleHeight := by
  refine ⟨?_, ?_, ?_⟩
  · unfold movePlayerPaddle
    obtain ⟨u, d⟩ := input
    cases u <;> cases d <;> simp
    congr 1
  · exact (clampPaddleY_range _).1
  · exact (clampPaddleY_range _).2

/-- Embeds JavaScript `Math.sign` on real inputs. -/
def mathSign (x : ℝ) : ℝ :=
  if x < 0 then -1 else if 0 < x then 1 else 0

/-- Embeds `moveAIPaddle` of `src/src/pong-game.js`: dead-zone of 2 pixels,
otherwise move toward the target by at most `paddleSpeed * 0.9 * frameSpeed`,
then clamp. -/
def moveAIPaddle (currentY targetY frameSpeed : ℝ) : ℝ :=
  let aiSpeed := PONG_CONFIG.paddleSpeed * 0.9
  let diff := targetY - currentY
  if |diff| ≤ 2 then currentY
  else clampPaddleY (currentY + mathSign diff * min |diff| (aiSpeed * frameSpeed))

/-- Claim C10: for in-bounds current and target positions and a nonnegative
frame time scale, `moveAIPaddle` lands in the closed interval between
`currentY` and `targetY` (it never overshoots the target), and inside the
2-pixel dead-zone it does not move at all. -/
theorem moveAIPaddle_between (currentY targetY frameSpeed : ℝ)
    (hc0 : 0 ≤ currentY) (hc1 : currentY ≤ PONG_CONFIG.height - PONG_CONFIG.paddleHeight)
    (ht0 : 0 ≤ targetY) (ht1 : targetY ≤ PONG_CONFIG.height - PONG_CONFIG.paddleHeight)
    (hf : 0 ≤ frameSpeed) :
    moveAIPaddle currentY targetY frameSpeed ∈ Set.uIcc currentY targetY ∧
    (|targetY - currentY| ≤ 2 → moveAIPaddle currentY targetY frameSpeed = currentY) := by
  unfold moveAIPaddle
  by_cases hd : |targetY - currentY| ≤ 2
  · rw [if_pos hd]
    exact ⟨Set.left_mem_uIcc, fun _ => rfl⟩
  · rw [if_neg hd]
    push_neg at hd
    refine ⟨?_, fun h => absurd h (not_le.mpr hd)⟩
    have hsp : (0:ℝ) ≤ PONG_CONFIG.paddleSpeed * 0.9 * frameSpeed := by
      have : (0:ℝ) ≤ PONG_CONFIG.paddleSpeed * 0.9 := by
        norm_num [PONG_CONFIG.paddleSpeed]
      positivity
    rcases lt_trichotomy (targetY - currentY) 0 with hlt | heq | hgt
    · have habs : |targetY - currentY| = -(targetY - currentY) := abs_of_neg hlt
      have hsgn : mathSign (targetY - currentY) = -1 := by
        unfold mathSign
        rw [if_pos hlt]
      rw [hsgn, habs]
      set m := min (-(targetY - currentY)) (PONG_CONFIG.paddleSpeed * 0.9 * frameSpeed) with hm
      have hm0 : 0 ≤ m := le_min (by linarith) hsp
      have hm1 : m ≤ -(targetY - currentY) := min_le_left _ _
      have hx0 : 0 ≤ currentY + -1 * m := by nlinarith
      have hx1 : currentY + -1 * m ≤ PONG_CONFIG.height - PONG_CONFIG.paddleHeight := by
        nlinarith
      rw [clampPaddleY_eq_self _ hx0 hx1]
      rw [Set.mem_uIcc]
      right
      constructor <;> nlinarith
    · exfalso
      rw [heq] at hd
      simp at hd
      linarith
    · have habs : |targetY - currentY| = targetY - currentY := abs_of_pos hgt
      have hsgn : mathSign (targetY - currentY) = 1 := by
        unfold mathSign
        rw [if_neg (not_lt.mpr (le_of_lt hgt)), if_pos hgt]
      rw [hsgn, habs]
      set m := min (targetY - currentY) (PONG_CONFIG.paddleSpeed * 0.9 * frameSpeed) with hm
      have hm0 : 0 ≤ m := le_min (by linarith) hsp
      have hm1 : m ≤ targetY - currentY := min_le_left _ _
      have hx0 : 0 ≤ currentY + 1 * m := by nlinarith
      have hx1 : currentY + 1 * m ≤ PONG_CONFIG.height - PONG_CONFIG.paddleHeight := by
        nlinarith
      rw [clampPaddleY_eq_self _ hx0 hx1]
      rw [Set.mem_uIcc]
      left
      constructor <;> nlinarith

/-- Witness for claim C10: from `y = 100` toward target `200` with
`frameSpeed = 1` the AI paddle stays inside `[100, 200]`. -/
theorem moveAIPaddle_between_witness :
    moveAIPaddle 100 200 1 ∈ Set.uIcc (100:ℝ) 200 := by
  have h := moveAIPaddle_between 100 200 1 (by norm_num)
    (by norm_num [PONG_CONFIG.height, PONG_CONFIG.paddleHeight]) (by norm_num)
    (by norm_num [PONG_CONFIG.height, PONG_CONFIG.paddleHeight]) (by norm_num)
  exact h.1

/-- The body of the bounce-folding `while` loop inside `predictBallY`:
mirror a negative value across 0, then mirror an overshooting value across
`height - ballSize`. -/
def bounceFoldStep (y : ℝ) : ℝ :=
  let y1 := if y < 0 then -y else y
  if y1 > PONG_CONFIG.height - PONG_CONFIG.ballSize then
    2 * (PONG_CONFIG.height - PONG_CONFIG.ballSize) - y1
  else y1

/-- The bounce-folding `while` loop of `predictBallY`, with the remaining
iteration budget (`maxIterations - iterations`) as fuel: while the value is
outside `[0, height - ballSize]` and fuel remains, apply `bounceFoldStep`. -/
def bounceFoldLoop : ℕ → ℝ → ℝ
  | 0, y => y
  | Nat.succ n, y =>
    if y < 0 ∨ y > PONG_CONFIG.height - PONG_CONFIG.ballSize then
      bounceFoldLoop n (bounceFoldStep y)
    else y

/-- The number of iterations the bounce-folding loop of `predictBallY`
actually executes within a fuel budget. -/
def bounceFoldCount : ℕ → ℝ → ℕ
  | 0, _ => 0
  | Nat.succ n, y =>
    if y < 0 ∨ y > PONG_CONFIG.height - PONG_CONFIG.ballSize then
      bounceFoldCount n (bounceFoldStep y) + 1
    else 0

/-- Embeds `predictBallY` of `src/src/pong-game.js`: linear extrapolation of
the ball's y to `targetX`, folded into the court by at most 10 reflection
passes; degenerate directions return `ball.y` unchanged. -/
def predictBallY (ball : Ball) (targetX : ℝ) : ℝ :=
  if ball.vx = 0 then ball.y
  else
    let timeToReach := (targetX - ball.x) / ball.vx
    if timeToReach < 0 then ball.y
    else bounceFoldLoop 10 (ball.y + ball.vy * timeToReach)

/-- A value already inside the court leaves the folding loop immediately. -/
lemma bounceFoldLoop_of_inside (n : ℕ) (y : ℝ) (h0 : 0 ≤ y)
    (h1 : y ≤ PONG_CONFIG.height - PONG_CONFIG.ballSize) : bounceFoldLoop n y = y := by
  cases n with
  | zero => rfl
  | succ n =>
    unfold bounceFoldLoop
    rw [if_neg]
    push_neg
    exact ⟨h0, h1⟩

/-- A value already inside the court makes the folding loop run 0 iterations. -/
lemma bounceFoldCount_of_inside (n : ℕ) (y : ℝ) (h0 : 0 ≤ y)
    (h1 : y ≤ PONG_CONFIG.height - PONG_CONFIG.ballSize) : bounceFoldCount n y = 0 := by
  cases n with
  | zero => rfl
  | succ n =>
    unfold bounceFoldCount
    rw [if_neg]
    push_neg
    exact ⟨h0, h1⟩

/-- Behaviour of the folding loop for any fuel: the iteration count never
exceeds the fuel, exiting below the fuel budget means the guard failed so the
result is inside the court, and the result is always the iterated step
function applied exactly `bounceFoldCount` times. -/
lemma bounceFoldLoop_spec (n : ℕ) (y : ℝ) :
    bounceFoldCount n y ≤ n ∧
    (bounceFoldCount n y < n →
      0 ≤ bounceFoldLoop n y ∧
      bounceFoldLoop n y ≤ PONG_CONFIG.height - PONG_CONFIG.ballSize) ∧
    bounceFoldLoop n y = bounceFoldStep^[bounceFoldCount n y] y := by
  induction n generalizing y with
  | zero => exact ⟨le_refl 0, fun h => absurd h (lt_irrefl 0), rfl⟩
  | succ n ih =>
    by_cases h : y < 0 ∨ y > PONG_CONFIG.height - PONG_CONFIG.ballSize
    · obtain ⟨ih1, ih2, ih3⟩ := ih (bounceFoldStep y)
      unfold bounceFoldLoop bounceFoldCount
      rw [if_pos h, if_pos h]
      refine ⟨Nat.succ_le_succ ih1, ?_, ?_⟩
      · intro hlt
        exact ih2 (Nat.lt_of_succ_lt_succ hlt)
      · rw [ih3, Function.iterate_succ_apply]
    · unfold bounceFoldLoop bounceFoldCount
      rw [if_neg h, if_neg h]
      push_neg at h
      exact ⟨Nat.zero_le _, fun _ => ⟨h.1, h.2⟩, rfl⟩

/-- Claim C9: for a ball with `vx ≠ 0` and a target ahead of it, the folding
loop of `predictBallY` runs at most 10 iterations; when it stops before the
cap the returned value lies in `[0, height - ballSize]`; the returned value
is always the last folded value (the step function iterated exactly
`bounceFoldCount` times), in particular it is returned as-is when the cap is
reached. -/
theorem predictBallY_fold_spec (ball : Ball) (targetX : ℝ)
    (h1 : ball.vx ≠ 0) (h2 : 0 ≤ (targetX - ball.x) / ball.vx) :
    bounceFoldCount 10 (ball.y + ball.vy * ((targetX - ball.x) / ball.vx)) ≤ 10 ∧
    (bounceFoldCount 10 (ball.y + ball.vy * ((targetX - ball.x) / ball.vx)) < 10 →
      0 ≤ predictBallY ball targetX ∧
      predictBallY ball targetX ≤ PONG_CONFIG.height - PONG_CONFIG.ballSize) ∧
    predictBallY ball targetX =
      bounceFoldStep^[bounceFoldCount 10 (ball.y + ball.vy * ((targetX - ball.x) / ball.vx))]
        (ball.y + ball.vy * ((targetX - ball.x) / ball.vx)) := by
  have hp : predictBallY ball targetX =
      bounceFoldLoop 10 (ball.y + ball.vy * ((targetX - ball.x) / ball.vx)) := by
    unfold predictBallY
    rw [if_neg h1, if_neg (not_lt.mpr h2)]
  rw [hp]
  exact bounceFoldLoop_spec 10 _

/-- Witness for claim C9: a ball at `(0, 150)` moving right with `vy = 0`
aimed at `x = 10` needs no folding and the prediction stays inside the
court. -/
theorem predictBallY_fold_spec_witness :
    0 ≤ predictBallY ⟨0, 150, 1, 0, 4⟩ 10 ∧
    predictBallY ⟨0, 150, 1, 0, 4⟩ 10 ≤ PONG_CONFIG.height - PONG_CONFIG.ballSize := by
  have h := (predictBallY_fold_spec ⟨0, 150, 1, 0, 4⟩ 10 (by norm_num) (by norm_num)).2.1
  apply h
  have hc : bounceFoldCount 10 ((150:ℝ) + 0 * ((10 - 0) / 1)) = 0 := by
    apply bounceFoldCount_of_inside <;>
      norm_num [PONG_CONFIG.height, PONG_CONFIG.ballSize]
  simp only [Ball.y, Ball.vy, Ball.x, Ball.vx] at hc ⊢
  rw [hc]
  norm_num

/-- The `angle` computed inside `checkPaddleCollision`: the normalized hit
offset `(ballCenter - paddleCenter) / (paddleHeight / 2)` times `0.8`. -/
def hitAngle (ball : Ball) (paddleY : ℝ) : ℝ :=
  ((ball.y + PONG_CONFIG.ballSize / 2) - (paddleY + PONG_CONFIG.paddleHeight / 2)) /
    (PONG_CONFIG.paddleHeight / 2) * 0.8

/-- Embeds `checkPaddleCollision` of `src/src/pong-game.js`; `none` stands
for the `{hit: false}` return value and `some newBall` for a hit. -/
def checkPaddleCollision (ball : Ball) (paddleX paddleY : ℝ) (isLeftPaddle : Bool) : Option Ball :=
  if ¬ (if isLeftPaddle then
          ball.x ≤ paddleX + PONG_CONFIG.paddleWidth ∧ paddleX ≤ ball.x ∧ ball.vx < 0
        else
          paddleX - PONG_CONFIG.ballSize ≤ ball.x ∧ ball.x ≤ paddleX ∧ 0 < ball.vx) then
    none
  else if ball.y + PONG_CONFIG.ballSize / 2 < paddleY ∨
      ball.y + PONG_CONFIG.ballSize / 2 > paddleY + PONG_CONFIG.paddleHeight then
    none
  else
    let newSpeed := min PONG_CONFIG.ballSpeedMax (ball.speed + PONG_CONFIG.ballSpeedIncrement)
    let newVx := if isLeftPaddle then newSpeed * Real.cos (hitAngle ball paddleY)
      else -(newSpeed * Real.cos (hitAngle ball paddleY))
    let newVy := newSpeed * Real.sin (hitAngle ball paddleY)
    let newX := if isLeftPaddle then paddleX + PONG_CONFIG.paddleWidth
      else paddleX - PONG_CONFIG.ballSize
    some ⟨newX, ball.y, newVx, newVy, newSpeed⟩

/-- Characterization of a reported paddle hit: the ball's vertical center
overlapped the paddle, and every field of the returned ball is the reflected
value computed by the source. -/
lemma checkPaddleCollision_eq_some (ball : Ball) (paddleX paddleY : ℝ)
    (isLeftPaddle : Bool) (b' : Ball)
    (h : checkPaddleCollision ball paddleX paddleY isLeftPaddle = some b') :
    paddleY ≤ ball.y + PONG_CONFIG.ballSize / 2 ∧
    ball.y + PONG_CONFIG.ballSize / 2 ≤ paddleY + PONG_CONFIG.paddleHeight ∧
    b'.speed = min PONG_CONFIG.ballSpeedMax (ball.speed + PONG_CONFIG.ballSpeedIncrement) ∧
    b'.y = ball.y ∧
    b'.vy = b'.speed * Real.sin (hitAngle ball paddleY) ∧
    b'.vx = (if isLeftPaddle then b'.speed * Real.cos (hitAngle ball paddleY)
      else -(b'.speed * Real.cos (hitAngle ball paddleY))) ∧
    b'.x = (if isLeftPaddle then paddleX + PONG_CONFIG.paddleWidth
      else paddleX - PONG_CONFIG.ballSize) := by
  cases isLeftPaddle with
  | false =>
    unfold checkPaddleCollision at h
    simp only [Bool.false_eq_true, if_false] at h
    split_ifs at h with h1 h2
    all_goals first
      | exact Option.noConfusion h
      | (rw [Option.some_inj] at h
         subst h
         push_neg at h2
         exact ⟨h2.1, h2.2, rfl, rfl, rfl, by simp, by simp⟩)
  | true =>
    unfold checkPaddleCollision at h
    simp only [eq_self_iff_true, if_true] at h
    split_ifs at h with h1 h2
    all_goals first
      | exact Option.noConfusion h
      | (rw [Option.some_inj] at h
         subst h
         push_neg at h2
         exact ⟨h2.1, h2.2, rfl, rfl, rfl, by simp, by simp⟩)

/-- Claim C2: whenever `checkPaddleCollision` reports a hit, the new speed is
exactly `min(ballSpeedMax, speed + ballSpeedIncrement)`; under the state
invariant `speed ≤ ballSpeedMax` it is at least the incoming speed, and it is
always at most `ballSpeedMax`. -/
theorem checkPaddleCollision_speed (ball : Ball) (paddleX paddleY : ℝ)
    (isLeftPaddle : Bool) (b' : Ball)
    (hmax : ball.speed ≤ PONG_CONFIG.ballSpeedMax)
    (h : checkPaddleCollision ball paddleX paddleY isLeftPaddle = some b') :
    b'.speed = min PONG_CONFIG.ballSpeedMax (ball.speed + PONG_CONFIG.ballSpeedIncrement) ∧
    ball.speed ≤ b'.speed ∧
    b'.speed ≤ PONG_CONFIG.ballSpeedMax := by
  obtain ⟨-, -, hs, -⟩ := checkPaddleCollision_eq_some ball paddleX paddleY isLeftPaddle b' h
  refine ⟨hs, ?_, ?_⟩
  · rw [hs]
    apply le_min hmax
    norm_num [PONG_CONFIG.ballSpeedIncrement]
  · rw [hs]
    exact min_le_left _ _

/-- Witness for claim C2: a leftward ball of speed 4 overlapping the player
paddle is reflected with speed `min 8 4.15 = 4.15`. -/
theorem checkPaddleCollision_speed_witness :
    (4:ℝ) ≤ PONG_CONFIG.ballSpeedMax ∧
    ∃ b' : Ball, checkPaddleCollision ⟨20, 130, -3, 0, 4⟩ 15 100 true = some b' ∧
      b'.speed = min PONG_CONFIG.ballSpeedMax (4 + PONG_CONFIG.ballSpeedIncrement) ∧
      (4:ℝ) ≤ b'.speed ∧ b'.speed ≤ PONG_CONFIG.ballSpeedMax := by
  have hmax : (4:ℝ) ≤ PONG_CONFIG.ballSpeedMax := by norm_num [PONG_CONFIG.ballSpeedMax]
  have hhit : checkPaddleCollision ⟨20, 130, -3, 0, 4⟩ 15 100 true =
      some ⟨15 + PONG_CONFIG.paddleWidth, 130,
        min PONG_CONFIG.ballSpeedMax ((4:ℝ) + PONG_CONFIG.ballSpeedIncrement) *
          Real.cos (hitAngle ⟨20, 130, -3, 0, 4⟩ 100),
        min PONG_CONFIG.ballSpeedMax ((4:ℝ) + PONG_CONFIG.ballSpeedIncrement) *
          Real.sin (hitAngle ⟨20, 130, -3, 0, 4⟩ 100),
        min PONG_CONFIG.ballSpeedMax ((4:ℝ) + PONG_CONFIG.ballSpeedIncrement)⟩ := by
    unfold checkPaddleCollision
    norm_num [PONG_CONFIG.paddleWidth, PONG_CONFIG.ballSize, PONG_CONFIG.paddleHeight]
  have h := checkPaddleCollision_speed ⟨20, 130, -3, 0, 4⟩ 15 100 true _ hmax hhit
  exact ⟨hmax, _, hhit, h⟩

/-- The deflection angle of a reported hit is at most 0.8 radians in
magnitude, because the ball's center overlapped the paddle's span. -/
lemma hitAngle_bounds (ball : Ball) (paddleY : ℝ)
    (h1 : paddleY ≤ ball.y + PONG_CONFIG.ballSize / 2)
    (h2 : ball.y + PONG_CONFIG.ballSize / 2 ≤ paddleY + PONG_CONFIG.paddleHeight) :
    -(0.8) ≤ hitAngle ball paddleY ∧ hitAngle ball paddleY ≤ 0.8 := by
  have hform : hitAngle ball paddleY =
      (ball.y + 5 - (paddleY + 35)) * (0.8 / 35) := by
    unfold hitAngle
    norm_num [PONG_CONFIG.ballSize, PONG_CONFIG.paddleHeight]
    ring
  have hu1 : -(35:ℝ) ≤ ball.y + 5 - (paddleY + 35) := by
    norm_num [PONG_CONFIG.ballSize] at h1
    linarith
  have hu2 : ball.y + 5 - (paddleY + 35) ≤ 35 := by
    norm_num [PONG_CONFIG.ballSize, PONG_CONFIG.paddleHeight] at h2
    linarith
  rw [hform]
  constructor <;> nlinarith

/-- The cosine of the deflection angle of a reported hit is positive
(the angle is capped strictly inside `(-π/2, π/2)`). -/
lemma hitAngle_cos_pos (ball : Ball) (paddleY : ℝ)
    (h1 : paddleY ≤ ball.y + PONG_CONFIG.ballSize / 2)
    (h2 : ball.y + PONG_CONFIG.ballSize / 2 ≤ paddleY + PONG_CONFIG.paddleHeight) :
    0 < Real.cos (hitAngle ball paddleY) := by
  obtain ⟨hb1, hb2⟩ := hitAngle_bounds ball paddleY h1 h2
  have hpi := Real.pi_gt_three
  apply Real.cos_pos_of_mem_Ioo
  rw [Set.mem_Ioo]
  constructor <;> linarith

/-- Claim C3: a reported hit preserves the speed–velocity invariant
`vx² + vy² = speed²` exactly; the new horizontal velocity points away from
the hit paddle (positive off the left paddle, negative off the right); and
the ball's x is snapped to that paddle's outer edge. -/
theorem checkPaddleCollision_invariant (ball : Ball) (paddleX paddleY : ℝ)
    (isLeftPaddle : Bool) (b' : Ball)
    (hsp : 0 ≤ ball.speed)
    (h : checkPaddleCollision ball paddleX paddleY isLeftPaddle = some b') :
    b'.vx ^ 2 + b'.vy ^ 2 = b'.speed ^ 2 ∧
    (isLeftPaddle = true → 0 < b'.vx ∧ b'.x = paddleX + PONG_CONFIG.paddleWidth) ∧
    (isLeftPaddle = false → b'.vx < 0 ∧ b'.x = paddleX - PONG_CONFIG.ballSize) := by
  obtain ⟨hy1, hy2, hs, -, hvy, hvx, hx⟩ :=
    checkPaddleCollision_eq_some ball paddleX paddleY isLeftPaddle b' h
  have hns : 0 < b'.speed := by
    rw [hs]
    apply lt_min
    · norm_num [PONG_CONFIG.ballSpeedMax]
    · norm_num [PONG_CONFIG.ballSpeedIncrement]
      linarith
  have hcos := hitAngle_cos_pos ball paddleY hy1 hy2
  have hpyth := Real.sin_sq_add_cos_sq (hitAngle ball paddleY)
  refine ⟨?_, ?_, ?_⟩
  · cases isLeftPaddle with
    | false =>
      simp only [Bool.false_eq_true, if_false] at hvx
      rw [hvx, hvy]
      nlinarith [hpyth]
    | true =>
      simp only [if_true] at hvx
      rw [hvx, hvy]
      nlinarith [hpyth]
  · intro hl
    subst hl
    simp only [if_true] at hvx hx
    rw [hvx]
    exact ⟨mul_pos hns hcos, hx⟩
  · intro hl
    subst hl
    simp only [Bool.false_eq_true, if_false] at hvx hx
    rw [hvx]
    refine ⟨?_, hx⟩
    have := mul_pos hns hcos
    linarith

/-- Witness for claim C3: a rightward ball of speed 4 hitting the AI paddle
dead-center leaves with `vx² + vy² = speed²`, a negative `vx`, and `x`
snapped to the paddle's outer (left) edge. -/
theorem checkPaddleCollision_invariant_witness :
    ∃ b' : Ball, checkPaddleCollision ⟨470, 130, 3, 0, 4⟩ 473 100 false = some b' ∧
      b'.vx ^ 2 + b'.vy ^ 2 = b'.speed ^ 2 ∧ b'.vx < 0 ∧
      b'.x = 473 - PONG_CONFIG.ballSize := by
  have hhit : checkPaddleCollision ⟨470, 130, 3, 0, 4⟩ 473 100 false =
      some ⟨473 - PONG_CONFIG.ballSize, 130,
        -(min PONG_CONFIG.ballSpeedMax ((4:ℝ) + PONG_CONFIG.ballSpeedIncrement) *
          Real.cos (hitAngle ⟨470, 130, 3, 0, 4⟩ 100)),
        min PONG_CONFIG.ballSpeedMax ((4:ℝ) + PONG_CONFIG.ballSpeedIncrement) *
          Real.sin (hitAngle ⟨470, 130, 3, 0, 4⟩ 100),
        min PONG_CONFIG.ballSpeedMax ((4:ℝ) + PONG_CONFIG.ballSpeedIncrement)⟩ := by
    unfold checkPaddleCollision
    norm_num [PONG_CONFIG.paddleWidth, PONG_CONFIG.ballSize, PONG_CONFIG.paddleHeight]
  have h := checkPaddleCollision_invariant ⟨470, 130, 3, 0, 4⟩ 473 100 false _
    (by norm_num) hhit
  exact ⟨_, hhit, h.1, (h.2.2 rfl).1, (h.2.2 rfl).2⟩

/-- Claim C5: `checkPaddleCollision` never reports a hit when the ball's
horizontal velocity does not point toward the paddle — `vx ≥ 0` for the left
paddle, `vx ≤ 0` for the right — regardless of positional overlap. -/
theorem checkPaddleCollision_no_hit_moving_away (ball : Ball) (paddleX paddleY : ℝ) :
    (0 ≤ ball.vx → checkPaddleCollision ball paddleX paddleY true = none) ∧
    (ball.vx ≤ 0 → checkPaddleCollision ball paddleX paddleY false = none) := by
  constructor
  · intro hv
    unfold checkPaddleCollision
    simp only [eq_self_iff_true, if_true]
    split_ifs with h1 h2
    all_goals first
      | rfl
      | (exfalso
         obtain ⟨-, -, hlt⟩ := h1
         linarith)
  · intro hv
    unfold checkPaddleCollision
    simp only [Bool.false_eq_true, if_false]
    split_ifs with h1 h2
    all_goals first
      | rfl
      | (exfalso
         obtain ⟨-, -, hlt⟩ := h1
         linarith)

/-- Witness for claim C5: a ball fully overlapping the player paddle but
moving rightward (`vx = 3 ≥ 0`) produces no hit. -/
theorem checkPaddleCollision_no_hit_moving_away_witness :
    (0:ℝ) ≤ 3 ∧ checkPaddleCollision ⟨20, 130, 3, 0, 4⟩ 15 100 true = none :=
  ⟨by norm_num,
    (checkPaddleCollision_no_hit_moving_away ⟨20, 130, 3, 0, 4⟩ 15 100).1 (by norm_num)⟩

/-- The global `Math.random` generator made explicit: an infinite stream of
draws together with a cursor marking the next draw to be consumed. -/
structure Rng where
  stream : ℕ → ℝ
  cursor : ℕ

/-- Embeds `generateServeVelocity` of `src/src/pong-game.js`.  With
`seed = some s` the source's `random` closure returns `s` on both calls and
the global generator is untouched; with `seed = none` (the `null` default)
the two calls consume the next two draws of the global generator. -/
def generateServeVelocity (seed : Option ℝ) (g : Rng) : (ℝ × ℝ) × Rng :=
  match seed with
  | some s =>
    let angle := s * 0.8 - 0.4
    let direction : ℝ := if s > 0.5 then 1 else -1
    ((direction * PONG_CONFIG.ballSpeedInitial * Real.cos angle,
      PONG_CONFIG.ballSpeedInitial * Real.sin angle), g)
  | none =>
    let r1 := g.stream g.cursor
    let r2 := g.stream (g.cursor + 1)
    let angle := r1 * 0.8 - 0.4
    let direction : ℝ := if r2 > 0.5 then 1 else -1
    ((direction * PONG_CONFIG.ballSpeedInitial * Real.cos angle,
      PONG_CONFIG.ballSpeedInitial * Real.sin angle), ⟨g.stream, g.cursor + 2⟩)

/-- On `[-0.4, 0.4]` the magnitude of the sine is at most `sin 0.4`. -/
lemma abs_sin_le_sin_bound (x : ℝ) (hx : |x| ≤ 0.4) : |Real.sin x| ≤ Real.sin 0.4 := by
  have hpi := Real.pi_gt_three
  have key : ∀ z : ℝ, 0 ≤ z → z ≤ 0.4 → Real.sin z ≤ Real.sin 0.4 := by
    intro z h0 h1
    apply Real.strictMonoOn_sin.monotoneOn ?_ ?_ h1
    · rw [Set.mem_Icc]
      constructor <;> linarith
    · rw [Set.mem_Icc]
      constructor <;> linarith
  obtain ⟨hx1, hx2⟩ := abs_le.mp hx
  rcases le_or_lt 0 x with h | h
  · have hs : 0 ≤ Real.sin x := Real.sin_nonneg_of_nonneg_of_le_pi h (by linarith)
    rw [abs_of_nonneg hs]
    exact key x h hx2
  · have hnx : 0 ≤ -x := by linarith
    have hs : 0 ≤ Real.sin (-x) :=
      Real.sin_nonneg_of_nonneg_of_le_pi hnx (by linarith)
    have hodd : Real.sin x = -Real.sin (-x) := by
      rw [Real.sin_neg]
      ring
    rw [hodd, abs_neg, abs_of_nonneg hs]
    exact key (-x) hnx (by linarith)

/-- The serve formula at one angle draw `r` and one direction value `d`:
the speed is exactly `ballSpeedInitial` and the vertical component is capped
by `ballSpeedInitial * sin 0.4`. -/
lemma serve_formula_spec (r : ℝ) (hr0 : 0 ≤ r) (hr1 : r < 1) (d : ℝ)
    (hd : d = 1 ∨ d = -1) :
    Real.sqrt ((d * PONG_CONFIG.ballSpeedInitial * Real.cos (r * 0.8 - 0.4)) ^ 2 +
      (PONG_CONFIG.ballSpeedInitial * Real.sin (r * 0.8 - 0.4)) ^ 2) =
      PONG_CONFIG.ballSpeedInitial ∧
    |PONG_CONFIG.ballSpeedInitial * Real.sin (r * 0.8 - 0.4)| ≤
      PONG_CONFIG.ballSpeedInitial * Real.sin 0.4 := by
  have hd2 : d ^ 2 = 1 := by
    rcases hd with h | h <;> rw [h] <;> norm_num
  have hpyth := Real.sin_sq_add_cos_sq (r * 0.8 - 0.4)
  constructor
  · have h16 : (d * PONG_CONFIG.ballSpeedInitial * Real.cos (r * 0.8 - 0.4)) ^ 2 +
        (PONG_CONFIG.ballSpeedInitial * Real.sin (r * 0.8 - 0.4)) ^ 2 =
        PONG_CONFIG.ballSpeedInitial ^ 2 := by
      norm_num [PONG_CONFIG.ballSpeedInitial]
      nlinarith [hpyth, hd2]
    rw [h16]
    exact Real.sqrt_sq (by norm_num [PONG_CONFIG.ballSpeedInitial])
  · rw [abs_mul, abs_of_nonneg (by norm_num [PONG_CONFIG.ballSpeedInitial] :
      (0:ℝ) ≤ PONG_CONFIG.ballSpeedInitial)]
    apply mul_le_mul_of_nonneg_left ?_ (by norm_num [PONG_CONFIG.ballSpeedInitial])
    apply abs_sin_le_sin_bound
    rw [abs_le]
    constructor <;> linarith

/-- Claim C6: for any seed and any global generator whose draws lie in
`[0, 1)`, the serve velocity has euclidean norm exactly `ballSpeedInitial`
and vertical component at most `ballSpeedInitial * sin 0.4` in magnitude. -/
theorem generateServeVelocity_spec (seed : Option ℝ) (g : Rng)
    (hg : ∀ n, 0 ≤ g.stream n ∧ g.stream n < 1)
    (hs : ∀ s, seed = some s → 0 ≤ s ∧ s < 1) :
    Real.sqrt (((generateServeVelocity seed g).1.1) ^ 2 +
      ((generateServeVelocity seed g).1.2) ^ 2) = PONG_CONFIG.ballSpeedInitial ∧
    |(generateServeVelocity seed g).1.2| ≤ PONG_CONFIG.ballSpeedInitial * Real.sin 0.4 := by
  cases seed with
  | none =>
    obtain ⟨h0, h1⟩ := hg g.cursor
    simp only [generateServeVelocity]
    split_ifs with hdir
    · exact serve_formula_spec (g.stream g.cursor) h0 h1 1 (Or.inl rfl)
    · exact serve_formula_spec (g.stream g.cursor) h0 h1 (-1) (Or.inr rfl)
  | some s =>
    obtain ⟨h0, h1⟩ := hs s rfl
    simp only [generateServeVelocity]
    split_ifs with hdir
    · exact serve_formula_spec s h0 h1 1 (Or.inl rfl)
    · exact serve_formula_spec s h0 h1 (-1) (Or.inr rfl)

/-- Witness for claim C6: the all-zero randomness stream serves at the
extreme angle `-0.4` with norm exactly `ballSpeedInitial`. -/
theorem generateServeVelocity_spec_witness :
    Real.sqrt (((generateServeVelocity none ⟨fun _ => 0, 0⟩).1.1) ^ 2 +
      ((generateServeVelocity none ⟨fun _ => 0, 0⟩).1.2) ^ 2) =
      PONG_CONFIG.ballSpeedInitial ∧
    |(generateServeVelocity none ⟨fun _ => 0, 0⟩).1.2| ≤
      PONG_CONFIG.ballSpeedInitial * Real.sin 0.4 :=
  generateServeVelocity_spec none ⟨fun _ => 0, 0⟩ (fun _ => by norm_num)
    (fun _ h => Option.noConfusion h)

/-- Embeds `calculateAITarget` of `src/src/pong-game.js`.  The source reads
the process-wide `Math.random()` for the ±15px jitter; that global generator
is made explicit as the `Rng` argument, whose cursor advances with the draw.
`currentAiY` is accepted but unused, exactly as in the source. -/
def calculateAITarget (ball : Ball) (currentAiY : ℝ) (g : Rng) : ℝ × Rng :=
  let aiX := PONG_CONFIG.width - PONG_CONFIG.paddleMargin - PONG_CONFIG.paddleWidth
  if ball.vx > 0 then
    let predictedY := predictBallY ball aiX
    (predictedY - PONG_CONFIG.paddleHeight / 2 + (g.stream g.cursor - 0.5) * 30,
      ⟨g.stream, g.cursor + 1⟩)
  else
    (PONG_CONFIG.height / 2 - PONG_CONFIG.paddleHeight / 2, g)

/-- Counterexample for claim C7: the AI-jitter step draws from the global
generator, so two successive calls of `calculateAITarget` on equal ball and
paddle inputs return different targets — AI targets are not reproducible by
injecting a fixed source, contrary to the claim. -/
theorem calculateAITarget_not_reproducible :
    (calculateAITarget ⟨0, 100, 1, 0, 4⟩ 100 ⟨fun n => (n : ℝ) / 10, 0⟩).1 ≠
      (calculateAITarget ⟨0, 100, 1, 0, 4⟩ 100
        ((calculateAITarget ⟨0, 100, 1, 0, 4⟩ 100 ⟨fun n => (n : ℝ) / 10, 0⟩).2)).1 := by
  have hpred : predictBallY ⟨0, 100, 1, 0, 4⟩
      (PONG_CONFIG.width - PONG_CONFIG.paddleMargin - PONG_CONFIG.paddleWidth) = 100 := by
    unfold predictBallY
    rw [if_neg (by norm_num), if_neg (by norm_num [PONG_CONFIG.width,
      PONG_CONFIG.paddleMargin, PONG_CONFIG.paddleWidth])]
    rw [show (100:ℝ) + (0:ℝ) *
        ((PONG_CONFIG.width - PONG_CONFIG.paddleMargin - PONG_CONFIG.paddleWidth - 0) / 1) =
        100 by ring]
    apply bounceFoldLoop_of_inside <;>
      norm_num [PONG_CONFIG.height, PONG_CONFIG.ballSize]
  have h1 : calculateAITarget ⟨0, 100, 1, 0, 4⟩ 100 ⟨fun n => (n : ℝ) / 10, 0⟩ =
      (50, ⟨fun n => (n : ℝ) / 10, 1⟩) := by
    simp only [calculateAITarget]
    rw [if_pos (by norm_num)]
    rw [hpred]
    norm_num [PONG_CONFIG.paddleHeight]
  have h2 : calculateAITarget ⟨0, 100, 1, 0, 4⟩ 100 ⟨fun n => (n : ℝ) / 10, 1⟩ =
      (53, ⟨fun n => (n : ℝ) / 10, 2⟩) := by
    simp only [calculateAITarget]
    rw [if_pos (by norm_num)]
    rw [hpred]
    norm_num [PONG_CONFIG.paddleHeight]
  rw [h1]
  simp only
  rw [h2]
  norm_num

/-- Claim C7 amended: the Serve Generator's randomness is injectable (with a
seed supplied its output does not depend on the global generator at all),
while the AI-jitter target is determined by the ball together with the global
generator's next draw — it is reproducible only when that global draw is
fixed, not by injecting a parameter. -/
theorem serve_injectable_ai_target_global (s : ℝ) (g g' : Rng) :
    (generateServeVelocity (some s) g).1 = (generateServeVelocity (some s) g').1 ∧
    (∀ (ball : Ball) (aiY : ℝ), g.stream g.cursor = g'.stream g'.cursor →
      (calculateAITarget ball aiY g).1 = (calculateAITarget ball aiY g').1) := by
  constructor
  · rfl
  · intro ball aiY h
    simp only [calculateAITarget]
    split_ifs with hv
    · rw [h]
    · rfl

/-- Witness for the amended claim C7: two generators presenting the same
next draw (at different cursors) produce the same AI target. -/
theorem serve_injectable_ai_target_global_witness :
    (calculateAITarget ⟨0, 100, 1, 0, 4⟩ 100 ⟨fun _ => 0.2, 0⟩).1 =
      (calculateAITarget ⟨0, 100, 1, 0, 4⟩ 100 ⟨fun _ => 0.2, 5⟩).1 :=
  (serve_injectable_ai_target_global 0.3 ⟨fun _ => 0.2, 0⟩ ⟨fun _ => 0.2, 5⟩).2
    ⟨0, 100, 1, 0, 4⟩ 100 rfl

/-- The closed set of match phases (`'countdown' | 'playing' | 'finished'`
in the source's state object). -/
inductive Phase
  | countdown
  | playing
  | finished
deriving DecidableEq

/-- Which side scored or won (`'player' | 'ai'` in the source). -/
inductive Scorer
  | player
  | ai
deriving DecidableEq

/-- The score record `{player, ai}`. -/
structure Score where
  player : ℕ
  ai : ℕ
deriving DecidableEq

/-- The match state: phase, countdown clock, both paddle positions, the AI
target, the ball and the score. -/
structure GameState where
  phase : Phase
  countdown : ℝ
  playerY : ℝ
  aiY : ℝ
  aiTargetY : ℝ
  ball : Ball
  score : Score

/-- Embeds `checkScore` of `src/src/pong-game.js`: `none` models the `null`
return value. -/
def checkScore (ball : Ball) : Option Scorer :=
  if ball.x < 0 then some Scorer.ai
  else if ball.x > PONG_CONFIG.width then some Scorer.player
  else none

/-- Embeds `checkWinner` of `src/src/pong-game.js`: `none` models the `null`
return value. -/
def checkWinner (score : Score) : Option Scorer :=
  if score.player ≥ PONG_CONFIG.pointsToWin then some Scorer.player
  else if score.ai ≥ PONG_CONFIG.pointsToWin then some Scorer.ai
  else none

/-- Modelled from the spec: the scoring tail of the per-tick physics update
(`updatePong` of the host layer, absent from `src/`).  Per spec §4.1, on a
score the win condition is checked; a win freezes the state in `Finished`
(no re-serve), otherwise the ball is reset to the center and the Serve
Generator is re-invoked, remaining in `Playing`. -/
def afterScore (s : GameState) (sc : Score) (py ay tg : ℝ) (b : Ball) (g : Rng) :
    GameState × Rng :=
  match checkWinner sc with
  | some _ =>
    ({ s with
        phase := Phase.finished, playerY := py, aiY := ay, aiTargetY := tg,
        ball := b, score := sc }, g)
  | none =>
    let serve := generateServeVelocity none g
    ({ s with
        playerY := py, aiY := ay, aiTargetY := tg,
        ball := ⟨PONG_CONFIG.width / 2 - PONG_CONFIG.ballSize / 2,
          PONG_CONFIG.height / 2 - PONG_CONFIG.ballSize / 2,
          serve.1.1, serve.1.2, PONG_CONFIG.ballSpeedInitial⟩,
        score := sc }, serve.2)

/-- Modelled from the spec: the per-tick physics update (`updatePong` of the
host layer, absent from `src/`), composed per spec §4.5 and the repository's
state-machine document §4.3: move the player paddle, retarget and move the
AI paddle, integrate the ball, resolve the wall collision, resolve at most
one paddle collision (player first), then check scoring. -/
def updatePong (s : GameState) (dt : ℝ) (inp : Input) (g : Rng) : GameState × Rng :=
  let py := movePlayerPaddle s.playerY inp dt
  let tg := calculateAITarget s.ball s.aiY g
  let ay := moveAIPaddle s.aiY tg.1 dt
  let b0 : Ball := ⟨s.ball.x + s.ball.vx * dt, s.ball.y + s.ball.vy * dt,
    s.ball.vx, s.ball.vy, s.ball.speed⟩
  let w := checkWallCollision b0
  let b1 : Ball := ⟨b0.x, w.newY, b0.vx, w.newVy, b0.speed⟩
  let b2 : Ball :=
    match checkPaddleCollision b1 PONG_CONFIG.paddleMargin py true with
    | some nb => nb
    | none =>
      match checkPaddleCollision b1
          (PONG_CONFIG.width - PONG_CONFIG.paddleMargin - PONG_CONFIG.paddleWidth) ay false with
      | some nb => nb
      | none => b1
  match checkScore b2 with
  | none => ({ s with playerY := py, aiY := ay, aiTargetY := tg.1, ball := b2 }, tg.2)
  | some Scorer.ai => afterScore s ⟨s.score.player, s.score.ai + 1⟩ py ay tg.1 b2 tg.2
  | some Scorer.player => afterScore s ⟨s.score.player + 1, s.score.ai⟩ py ay tg.1 b2 tg.2

/-- Modelled from the spec: the per-frame boundary operation
`advance(state, elapsedTime, input)` of spec §6 (owned by the host layer,
absent from `src/`).  In `Countdown` the clock decreases by the elapsed
time and play starts with a serve once it reaches zero; in `Playing` one
physics update runs; `Finished` is terminal and the state is returned
unchanged. -/
def advance (s : GameState) (dt : ℝ) (inp : Input) (g : Rng) : GameState × Rng :=
  match s.phase with
  | Phase.countdown =>
    let c := s.countdown - dt
    if c ≤ 0 then
      let serve := generateServeVelocity none g
      ({ s with
          phase := Phase.playing, countdown := c,
          ball := ⟨s.ball.x, s.ball.y, serve.1.1, serve.1.2,
            PONG_CONFIG.ballSpeedInitial⟩ }, serve.2)
    else
      ({ s with countdown := c }, g)
  | Phase.playing => updatePong s dt inp g
  | Phase.finished => (s, g)

/-- Iterates `advance` over a list of frames, each with its own elapsed
time and input snapshot, threading the global generator. -/
def advanceSteps (s : GameState) (g : Rng) : List (ℝ × Input) → GameState × Rng
  | [] => (s, g)
  | step :: rest =>
    let r := advance s step.1 step.2 g
    advanceSteps r.1 r.2 rest

/-- Claim C1: a `Finished` state is frozen — advancing it any number of
times, with any elapsed times and any inputs, is a no-op that leaves the
ball, the player paddle, the AI paddle and the score unchanged. -/
theorem advance_finished_frozen (s : GameState) (h : s.phase = Phase.finished)
    (steps : List (ℝ × Input)) (g : Rng) :
    (advanceSteps s g steps).1.ball = s.ball ∧
    (advanceSteps s g steps).1.playerY = s.playerY ∧
    (advanceSteps s g steps).1.aiY = s.aiY ∧
    (advanceSteps s g steps).1.score = s.score := by
  have key : ∀ g', (advanceSteps s g' steps).1 = s := by
    induction steps with
    | nil => intro g'; rfl
    | cons a rest ih =>
      intro g'
      have hstep : advance s a.1 a.2 g' = (s, g') := by
        unfold advance
        rw [h]
      unfold advanceSteps
      rw [hstep]
      exact ih g'
  rw [key g]
  exact ⟨rfl, rfl, rfl, rfl⟩

/-- Witness for claim C1: a concrete finished 5–3 state survives a frame of
held input untouched. -/
theorem advance_finished_frozen_witness :
    (advanceSteps ⟨Phase.finished, 0, 115, 115, 150, ⟨245, 145, 0, 0, 4⟩, ⟨5, 3⟩⟩
        ⟨fun _ => 0, 0⟩ [(1, ⟨true, false⟩)]).1.ball = ⟨245, 145, 0, 0, 4⟩ ∧
    (advanceSteps ⟨Phase.finished, 0, 115, 115, 150, ⟨245, 145, 0, 0, 4⟩, ⟨5, 3⟩⟩
        ⟨fun _ => 0, 0⟩ [(1, ⟨true, false⟩)]).1.score = ⟨5, 3⟩ := by
  have h := advance_finished_frozen
    ⟨Phase.finished, 0, 115, 115, 150, ⟨245, 145, 0, 0, 4⟩, ⟨5, 3⟩⟩ rfl
    [(1, ⟨true, false⟩)] ⟨fun _ => 0, 0⟩
  exact ⟨h.1, h.2.2.2⟩

end

end Pong
